import Mathlib

/-!
Shallow embedding of `src/main.rs` of the test-revert-protection repository:
a command-line client that derives EIP-1559 fees from the latest base fee,
builds and signs a transaction (plain transfer or reverting contract
creation), submits it either directly or as a relay bundle, and watches for
inclusion under a 20-second timeout.

Machine integers are modelled as `Nat` with explicit `% 2^w` where the source
performs wrapping-prone arithmetic (`u128` additions); divisions and `max`
cannot overflow and are modelled directly.
-/

namespace RevertProtection

/-- Width modulus of the Rust `u128` type. -/
def U128 : Nat := 2 ^ 128

/-- Width modulus of the Rust `u64` type; `base_fee_per_gas` is a `u64`
on-chain value widened with `as u128` before the fee derivation. -/
def U64 : Nat := 2 ^ 64

/-- Embeds `let priority_fee = (base_fee / 10).max(2_000_000_000);`
(main.rs line 92). Rust `u128` division truncates toward zero, which on
non-negative inputs is `Nat` floor division; neither `/` nor `max` can
overflow `u128`. -/
def priority_fee (base_fee : Nat) : Nat :=
  Nat.max (base_fee / 10) 2000000000

/-- Embeds `let max_fee = base_fee + priority_fee + (base_fee / 4);`
(main.rs line 93). The two `u128` additions are modelled with explicit
wrap-around, evaluated left to right as in Rust. -/
def max_fee (base_fee : Nat) : Nat :=
  ((base_fee + priority_fee base_fee) % U128 + base_fee / 4) % U128

/-- Embeds `fn parse_rpc_url(input: &str) -> Result<String, String>`
(main.rs lines 40-48): two fixed aliases, everything else passed through. -/
def parse_rpc_url (input : String) : Except String String :=
  match input with
  | "uni-experimental" =>
      .ok "http://experi-Proxy-cDzRHZCY6czr-74615020.us-east-2.elb.amazonaws.com"
  | "uni-sepolia" => .ok "https://sepolia.unichain.org"
  | url => .ok url

/-- Destination of a transaction request, as in alloy's `TxKind`:
either contract creation (no destination address) or a call to an address. -/
inductive TxKind where
  | create : TxKind
  | call (addr : Nat) : TxKind
deriving DecidableEq, Repr

/-- Unsigned transaction request assembled by `main`, mirroring the fields
of alloy's `TransactionRequest` that the source sets. A `none` input is an
unset payload, which encodes as the empty byte string. -/
structure TransactionRequest where
  gas_limit : Option Nat := none
  chain_id : Option Nat := none
  nonce : Option Nat := none
  max_priority_fee_per_gas : Option Nat := none
  max_fee_per_gas : Option Nat := none
  to_kind : Option TxKind := none
  input : Option (List Nat) := none
deriving DecidableEq, Repr

/-- Effective payload bytes of a request: the input if set, else empty. -/
def TransactionRequest.payload (t : TransactionRequest) : List Nat :=
  t.input.getD []

/-- Fixed deploy code `hex!("60006000fd")` set in RevertingCall mode
(main.rs line 113): PUSH1 0 PUSH1 0 REVERT. -/
def revert_deploy_code : List Nat := [0x60, 0x00, 0x60, 0x00, 0xfd]

/-- Fixed transfer recipient `0xd8dA6BF26964aF9D7eEd9e03E53415D37aA96045`
set in Transfer mode (main.rs line 115). -/
def transfer_recipient : Nat := 0xd8dA6BF26964aF9D7eEd9e03E53415D37aA96045

/-- Embeds main.rs lines 105-116: populate gas limit 300000, chain id,
nonce and the two fee fields, then either set the deploy code (reverts:
creation, no destination) or set the fixed recipient. alloy's
`set_deploy_code` sets the input and `TxKind::Create`; `set_to` sets
`TxKind::Call`. -/
def build_request (reverts : Bool) (chain_id nonce pf mf : Nat) :
    TransactionRequest :=
  let tx : TransactionRequest :=
    { gas_limit := some 300000
      chain_id := some chain_id
      nonce := some nonce
      max_priority_fee_per_gas := some pf
      max_fee_per_gas := some mf }
  if reverts then
    { tx with input := some revert_deploy_code, to_kind := some .create }
  else
    { tx with to_kind := some (.call transfer_recipient) }

/-- Block header view: only the `base_fee_per_gas` field is read by `main`
(an optional `u64` in the RPC block type). -/
structure Header where
  base_fee_per_gas : Option Nat
deriving DecidableEq, Repr

/-- Embeds `pub struct Bundle` (main.rs lines 50-57): ordered transactions
plus an optional maximum block number. -/
structure Bundle where
  transactions : List (List Nat)
  block_number_max : Option Nat
deriving DecidableEq, Repr

/-- Embeds `pub struct BundleResult` (main.rs lines 59-63). -/
structure BundleResult where
  bundle_hash : Nat
deriving DecidableEq, Repr

/-- Outcome of `pending_tx.watch()`: mined with a final hash, timed out, or
a remote error. The source treats every non-`Ok` case alike (prints and
continues), so timeout and error are separate constructors only to track
which outcome the remote produced. -/
inductive WatchResult where
  | mined (h : Nat) : WatchResult
  | timed_out : WatchResult
  | watch_err (msg : String) : WatchResult
deriving DecidableEq, Repr

/-- How the process terminates: `ok` is exit code 0 (the `Ok(())` return),
`errExit` a nonzero exit through `eyre` error propagation (`?` / `bail!`),
`panicked` an abort through `expect`/`unwrap`. -/
inductive ExitKind where
  | ok : ExitKind
  | errExit (msg : String) : ExitKind
  | panicked (msg : String) : ExitKind
deriving DecidableEq, Repr

/-- Remote world the run interacts with: responses of the RPC endpoint, of
the signing step, and of the inclusion watch. Each run consumes fixed
responses, matching the single-attempt, no-retry design. -/
structure Oracle where
  pk_parse : Except String Nat
  get_transaction_count : Nat → Except String Nat
  get_chain_id : Except String Nat
  get_block_latest : Except String (Option Header)
  get_balance : Nat → Except String Nat
  build_sign : TransactionRequest → Except String (List Nat)
  send_raw_transaction : List Nat → Except String Nat
  rpc_request : String → Bundle → Except String BundleResult
  watch : Nat → Option Nat → WatchResult

/-- Observable trace of one run of `main`: the exit kind plus what was
built, signed, sent and watched along the way. -/
structure RunResult where
  exit : ExitKind
  built : Option TransactionRequest := none
  encoded : Option (List Nat) := none
  bundle_sent : Option (String × Bundle) := none
  raw_sent : Option (List Nat) := none
  pending : Option (Nat × Option Nat) := none
  watched : Option WatchResult := none

/-- Embeds `async fn main` (main.rs lines 66-154) as explicit state passing
over the oracle: parse the key, read nonce / chain id / latest block (the
base-fee read panics via `expect("base fee")` or `unwrap()` when the field
or the block is absent), derive fees, bail on zero balance, build and sign
the request, then submit either as the sole entry of a `Bundle` through the
`eth_sendBundle` RPC method or through `send_raw_transaction`, set a
20-second timeout on the pending handle, watch, and return `Ok(())`
whatever the watch outcome. -/
def main_run (reverts bundle : Bool) (o : Oracle) : RunResult :=
  match o.pk_parse with
  | .error e => { exit := .errExit e }
  | .ok pk_addr =>
  match o.get_transaction_count pk_addr with
  | .error e => { exit := .errExit e }
  | .ok nonce =>
  match o.get_chain_id with
  | .error e => { exit := .errExit e }
  | .ok chain_id =>
  match o.get_block_latest with
  | .error e => { exit := .errExit e }
  | .ok none => { exit := .panicked "called Option::unwrap() on a None value" }
  | .ok (some blk) =>
  match blk.base_fee_per_gas with
  | none => { exit := .panicked "base fee" }
  | some base_fee =>
  match o.get_balance pk_addr with
  | .error e => { exit := .errExit e }
  | .ok balance =>
  if balance = 0 then
    { exit := .errExit
        "Insufficient balance for the transaction. Please fund the account." }
  else
    match o.build_sign (build_request reverts chain_id nonce
        (priority_fee base_fee) (max_fee base_fee)) with
    | .error e =>
        { exit := .errExit e,
          built := some (build_request reverts chain_id nonce
            (priority_fee base_fee) (max_fee base_fee)) }
    | .ok tx_encoded =>
    if bundle then
      match o.rpc_request "eth_sendBundle"
          { transactions := [tx_encoded], block_number_max := none } with
      | .error e =>
          { exit := .errExit e,
            built := some (build_request reverts chain_id nonce
              (priority_fee base_fee) (max_fee base_fee)),
            encoded := some tx_encoded,
            bundle_sent := some ("eth_sendBundle",
              { transactions := [tx_encoded], block_number_max := none }) }
      | .ok result =>
          { exit := .ok,
            built := some (build_request reverts chain_id nonce
              (priority_fee base_fee) (max_fee base_fee)),
            encoded := some tx_encoded,
            bundle_sent := some ("eth_sendBundle",
              { transactions := [tx_encoded], block_number_max := none }),
            pending := some (result.bundle_hash, some 20),
            watched := some (o.watch result.bundle_hash (some 20)) }
    else
      match o.send_raw_transaction tx_encoded with
      | .error e =>
          { exit := .errExit e,
            built := some (build_request reverts chain_id nonce
              (priority_fee base_fee) (max_fee base_fee)),
            encoded := some tx_encoded,
            raw_sent := some tx_encoded }
      | .ok txh =>
          { exit := .ok,
            built := some (build_request reverts chain_id nonce
              (priority_fee base_fee) (max_fee base_fee)),
            encoded := some tx_encoded,
            raw_sent := some tx_encoded,
            pending := some (txh, some 20),
            watched := some (o.watch txh (some 20)) }

/-- Concrete oracle on which every remote interaction succeeds: used to
instantiate the hypotheses of the pipeline theorems. The signer address is
the one of the default Anvil test key. -/
def happyOracle : Oracle :=
  { pk_parse := .ok 0xf39Fd6e51aad88F6F4ce6aB8827279cffFb92266
    get_transaction_count := fun _ => .ok 7
    get_chain_id := .ok 1301
    get_block_latest := .ok (some { base_fee_per_gas := some 1000000000 })
    get_balance := fun _ => .ok 1000000000000000000
    build_sign := fun _ => .ok [0x02, 0xaa, 0xbb]
    send_raw_transaction := fun _ => .ok 0xcafe
    rpc_request := fun _ _ => .ok { bundle_hash := 0xbeef }
    watch := fun _ _ => .mined 0xcafe }

/-- Variant of `happyOracle` whose latest block has no base-fee field. -/
def noBaseFeeOracle : Oracle :=
  { happyOracle with get_block_latest := .ok (some { base_fee_per_gas := none }) }

/-- Variant of `happyOracle` with a zero account balance. -/
def zeroBalanceOracle : Oracle :=
  { happyOracle with get_balance := fun _ => .ok 0 }

/-- Variant of `happyOracle` whose inclusion watch times out. -/
def timeoutOracle : Oracle :=
  { happyOracle with watch := fun _ _ => .timed_out }

/-- Modelled from the spec: an ECDSA-style signature as carried by the
2718 envelope (recovery parity plus the two scalar components). The
concrete secp256k1 arithmetic lives in the alloy dependency, outside this
repository. -/
structure Signature where
  y_parity : Bool
  r : Nat
  s : Nat
deriving DecidableEq, Repr

/-- Modelled from the spec: the Signer component — "holds a private signing
key, derives a public address, and produces signatures over transaction
payloads", with the contract that the sender recovered from a produced
signature equals the derived address. The secp256k1 implementation is in
the alloy dependency, outside this repository, so the scheme is abstract:
`addr_of` derives the address of a key, `sign` signs a payload, `recover`
recovers the signer address of a signed payload. -/
structure SigScheme where
  addr_of : Nat → Nat
  sign : Nat → List Nat → Signature
  recover : List Nat → Signature → Nat

/-- Correctness of a signature scheme: recovering from a signature produced
over a payload yields the signing key's derived address. -/
def SigScheme.correct (S : SigScheme) : Prop :=
  ∀ (key : Nat) (payload : List Nat),
    S.recover payload (S.sign key payload) = S.addr_of key

/-- Big-endian minimal byte string of a natural number (empty for 0). -/
def natToBeBytes (n : Nat) : List Nat := (Nat.digits 256 n).reverse

/-- Value of a big-endian byte string. -/
def beBytesToNat (l : List Nat) : Nat := Nat.ofDigits 256 l.reverse

/-- Length-prefixed framing of a byte string inside the envelope. -/
def frame (bs : List Nat) : List Nat := bs.length :: bs

/-- Modelled from the spec: encoding of the destination — "a self-describing
encoding carrying transaction type, fields, and signature". Tag 0 is
contract creation (no destination address), tag 1 carries a call address.
An unset destination has contract-creation semantics. -/
def encode_to_kind : Option TxKind → List Nat
  | some (TxKind.call a) => 1 :: frame (natToBeBytes a)
  | _ => [0]

/-- Modelled from the spec: encoding of the signature portion of the
envelope (parity byte, then the two framed scalars). -/
def encode_sig (g : Signature) : List Nat :=
  (if g.y_parity then 1 else 0) ::
    (frame (natToBeBytes g.r) ++ frame (natToBeBytes g.s))

/-- Modelled from the spec: the field portion of the envelope, in EIP-1559
field order (chainId, nonce, maxPriorityFeePerGas, maxFeePerGas, gasLimit,
destination, payload), each field framed, followed by a continuation. The
continuation style keeps one definition for both the signing payload (empty
continuation) and the full envelope (signature continuation). -/
def encode_fields_then (t : TransactionRequest) (rest : List Nat) : List Nat :=
  frame (natToBeBytes (t.chain_id.getD 0)) ++
    (frame (natToBeBytes (t.nonce.getD 0)) ++
    (frame (natToBeBytes (t.max_priority_fee_per_gas.getD 0)) ++
    (frame (natToBeBytes (t.max_fee_per_gas.getD 0)) ++
    (frame (natToBeBytes (t.gas_limit.getD 0)) ++
    (encode_to_kind t.to_kind ++
    (frame t.payload ++ rest))))))

/-- Modelled from the spec: the payload the Signer signs — the
self-describing type byte 2 followed by the encoded fields (the envelope
without its signature). -/
def signing_payload (t : TransactionRequest) : List Nat :=
  2 :: encode_fields_then t []

/-- Modelled from the spec: the binary 2718 envelope — type byte 2, the
encoded fields, then the signature produced by the Signer over the signing
payload. -/
def encoded_2718 (S : SigScheme) (key : Nat) (t : TransactionRequest) :
    List Nat :=
  2 :: encode_fields_then t (encode_sig (S.sign key (signing_payload t)))

/-- Decoded view of a 2718 envelope: the transaction fields plus the
signature. -/
structure DecodedTx where
  chain_id : Nat
  nonce : Nat
  max_priority_fee_per_gas : Nat
  max_fee_per_gas : Nat
  gas_limit : Nat
  to_kind : TxKind
  payload : List Nat
  sig : Signature
deriving DecidableEq, Repr

/-- Reads one framed byte string: a length then that many bytes. -/
def parseFrame : List Nat → Option (List Nat × List Nat)
  | [] => none
  | n :: rest =>
      if n ≤ rest.length then some (rest.take n, rest.drop n) else none

/-- Reads one framed big-endian natural number. -/
def parseNatF (l : List Nat) : Option (Nat × List Nat) :=
  match parseFrame l with
  | some (bs, rest) => some (beBytesToNat bs, rest)
  | none => none

/-- Reads the destination: tag 0 is creation, tag 1 a framed address. -/
def parse_to_kind (l : List Nat) : Option (TxKind × List Nat) :=
  match l with
  | [] => none
  | tag :: rest =>
    if tag = 0 then some (.create, rest)
    else if tag = 1 then
      match parseFrame rest with
      | some (bs, rest2) => some (.call (beBytesToNat bs), rest2)
      | none => none
    else none

/-- Reads the seven transaction fields of the envelope in order. -/
def parse_fields (l : List Nat) :
    Option (Nat × Nat × Nat × Nat × Nat × TxKind × List Nat × List Nat) :=
  match parseNatF l with
  | none => none
  | some (chain_id, l1) =>
  match parseNatF l1 with
  | none => none
  | some (nonce, l2) =>
  match parseNatF l2 with
  | none => none
  | some (pf, l3) =>
  match parseNatF l3 with
  | none => none
  | some (mf, l4) =>
  match parseNatF l4 with
  | none => none
  | some (gas, l5) =>
  match parse_to_kind l5 with
  | none => none
  | some (k, l6) =>
  match parseFrame l6 with
  | none => none
  | some (payload, l7) => some (chain_id, nonce, pf, mf, gas, k, payload, l7)

/-- Reads the two framed signature scalars after the parity byte. -/
def parse_sig_scalars (parity : Bool) (l : List Nat) :
    Option (Signature × List Nat) :=
  match parseNatF l with
  | none => none
  | some (r, l2) =>
  match parseNatF l2 with
  | none => none
  | some (s, l3) => some ({ y_parity := parity, r := r, s := s }, l3)

/-- Reads the signature portion: parity byte then the two framed scalars. -/
def parse_sig (l : List Nat) : Option (Signature × List Nat) :=
  match l with
  | [] => none
  | p :: rest =>
    if p = 0 then parse_sig_scalars false rest
    else if p = 1 then parse_sig_scalars true rest
    else none

/-- Decodes a 2718 envelope: type byte 2, the fields, the signature, and
nothing left over. -/
def decode_2718 (l : List Nat) : Option DecodedTx :=
  match l with
  | [] => none
  | tb :: rest =>
    if tb = 2 then
      match parse_fields rest with
      | none => none
      | some (chain_id, nonce, pf, mf, gas, k, payload, rest2) =>
        match parse_sig rest2 with
        | none => none
        | some (g, rest3) =>
          if rest3 = [] then
            some { chain_id := chain_id, nonce := nonce,
                   max_priority_fee_per_gas := pf, max_fee_per_gas := mf,
                   gas_limit := gas, to_kind := k, payload := payload,
                   sig := g }
          else none
    else none

/-- Request carrying exactly the decoded fields, used to rebuild the signed
payload of a decoded envelope. -/
def DecodedTx.to_request (d : DecodedTx) : TransactionRequest :=
  { gas_limit := some d.gas_limit
    chain_id := some d.chain_id
    nonce := some d.nonce
    max_priority_fee_per_gas := some d.max_priority_fee_per_gas
    max_fee_per_gas := some d.max_fee_per_gas
    to_kind := some d.to_kind
    input := some d.payload }

/-- Sender address recovered from a binary envelope: decode it, rebuild the
signed payload from the decoded fields, and recover from the signature. -/
def recovered_sender (S : SigScheme) (l : List Nat) : Option Nat :=
  (decode_2718 l).map fun d => S.recover (signing_payload d.to_request) d.sig

/-- Concrete signature scheme witnessing satisfiability of
`SigScheme.correct`: the address is carried in the `r` component. -/
def trivialScheme : SigScheme :=
  { addr_of := fun key => 2 * key + 1
    sign := fun key _ => { y_parity := false, r := 2 * key + 1, s := 0 }
    recover := fun _ g => g.r }

/-- Helper bound: for a base fee below `2^64` the whole fee sum stays far
below `2^128`, so the wrapping additions in `max_fee` are exact. -/
lemma fee_sum_lt (base_fee : Nat) (h : base_fee < U64) :
    base_fee + priority_fee base_fee + base_fee / 4 < U128 := by
  have hd10 : base_fee / 10 ≤ base_fee := Nat.div_le_self _ _
  have hd4 : base_fee / 4 ≤ base_fee := Nat.div_le_self _ _
  have hp : priority_fee base_fee ≤ base_fee + 2000000000 :=
    Nat.max_le.mpr ⟨by omega, by omega⟩
  have h2 : (2000000000 : Nat) < U64 := by norm_num [U64]
  have h3 : U64 + U64 + U64 + U64 < U128 := by norm_num [U64, U128]
  omega

/-- Helper: below `2^64` the `max_fee` wrap-arounds vanish and the source
expression equals the pure sum. -/
lemma max_fee_eq (base_fee : Nat) (h : base_fee < U64) :
    max_fee base_fee = base_fee + priority_fee base_fee + base_fee / 4 := by
  have hs := fee_sum_lt base_fee h
  have h1 : base_fee + priority_fee base_fee < U128 := by omega
  unfold max_fee
  rw [Nat.mod_eq_of_lt h1, Nat.mod_eq_of_lt hs]

/-- Helper: whenever a run reaches the inclusion watch (its trace records a
watch outcome), the run returns `Ok(())`, i.e. exit code 0; contrapositive:
a nonzero exit can only come from a failure before the watch. -/
lemma watched_imp_exit_ok (reverts bundle : Bool) (o : Oracle) :
    (main_run reverts bundle o).watched ≠ none →
    (main_run reverts bundle o).exit = ExitKind.ok := by
  unfold main_run
  cases o.pk_parse with
  | error e => intro h; exact absurd rfl h
  | ok pk =>
  dsimp only
  cases o.get_transaction_count pk with
  | error e => intro h; exact absurd rfl h
  | ok nonce =>
  dsimp only
  cases o.get_chain_id with
  | error e => intro h; exact absurd rfl h
  | ok chain_id =>
  dsimp only
  cases o.get_block_latest with
  | error e => intro h; exact absurd rfl h
  | ok ob =>
  cases ob with
  | none => intro h; exact absurd rfl h
  | some blk =>
  dsimp only
  cases blk.base_fee_per_gas with
  | none => intro h; exact absurd rfl h
  | some bf =>
  dsimp only
  cases o.get_balance pk with
  | error e => intro h; exact absurd rfl h
  | ok bal =>
  dsimp only
  by_cases hb : bal = 0
  · rw [if_pos hb]; intro h; exact absurd rfl h
  · rw [if_neg hb]
    cases o.build_sign (build_request reverts chain_id nonce
        (priority_fee bf) (max_fee bf)) with
    | error e => intro h; exact absurd rfl h
    | ok enc =>
    dsimp only
    cases bundle with
    | true =>
      cases o.rpc_request "eth_sendBundle"
          { transactions := [enc], block_number_max := none } with
      | error e => intro h; exact absurd rfl h
      | ok result => intro _; rfl
    | false =>
      cases o.send_raw_transaction enc with
      | error e => intro h; exact absurd rfl h
      | ok txh => intro _; rfl

/-- C1: for every base fee (an unsigned 64-bit on-chain value widened to
`u128`), the derivation returns priorityFeePerGas = max(baseFee/10 floored,
2_000_000_000) and maxFeePerGas = baseFee + priorityFeePerGas + baseFee/4
floored; whenever baseFee/10 < 2_000_000_000 the priority fee is exactly
2_000_000_000; and baseFee = 1_000_000_000 yields priority fee
2_000_000_000 and max fee 3_250_000_000. -/
theorem fee_plan_formula (base_fee : Nat) (h : base_fee < U64) :
    priority_fee base_fee = Nat.max (base_fee / 10) 2000000000 ∧
    max_fee base_fee = base_fee + priority_fee base_fee + base_fee / 4 ∧
    (base_fee / 10 < 2000000000 → priority_fee base_fee = 2000000000) ∧
    priority_fee 1000000000 = 2000000000 ∧
    max_fee 1000000000 = 3250000000 := by
  refine ⟨rfl, max_fee_eq _ h,
    fun hlt => Nat.max_eq_right (Nat.le_of_lt hlt), by decide, by decide⟩

/-- Witness for `fee_plan_formula` at baseFee = 1 gwei. -/
theorem fee_plan_formula_witness :
    (1000000000 : Nat) < U64 ∧
    (priority_fee 1000000000 = Nat.max (1000000000 / 10) 2000000000 ∧
     max_fee 1000000000 = 1000000000 + priority_fee 1000000000 + 1000000000 / 4 ∧
     (1000000000 / 10 < 2000000000 → priority_fee 1000000000 = 2000000000) ∧
     priority_fee 1000000000 = 2000000000 ∧
     max_fee 1000000000 = 3250000000) :=
  ⟨by decide, fee_plan_formula 1000000000 (by decide)⟩

/-- C2: for every base fee in the `u64` input domain, the derived fees
satisfy maxFeePerGas ≥ priorityFeePerGas + baseFee. -/
theorem fee_plan_invariant (base_fee : Nat) (h : base_fee < U64) :
    priority_fee base_fee + base_fee ≤ max_fee base_fee := by
  rw [max_fee_eq _ h]; omega

/-- Witness for `fee_plan_invariant` at baseFee = 50 gwei. -/
theorem fee_plan_invariant_witness :
    (50000000000 : Nat) < U64 ∧
    priority_fee 50000000000 + 50000000000 ≤ max_fee 50000000000 :=
  ⟨by decide, fee_plan_invariant 50000000000 (by decide)⟩

/-- C10: for every base fee representable as an unsigned 64-bit value, the
fee derivation performed in 128-bit unsigned arithmetic is total: every
intermediate value (baseFee/10, the max, baseFee/4, the running sums) stays
below `2^128`, the wrapping additions are exact, and no failure branch
exists (the derivation is a total function). -/
theorem fee_derivation_total (base_fee : Nat) (h : base_fee < U64) :
    base_fee / 10 < U128 ∧
    priority_fee base_fee < U128 ∧
    base_fee / 4 < U128 ∧
    base_fee + priority_fee base_fee < U128 ∧
    base_fee + priority_fee base_fee + base_fee / 4 < U128 ∧
    max_fee base_fee = base_fee + priority_fee base_fee + base_fee / 4 := by
  have hs := fee_sum_lt base_fee h
  exact ⟨by omega, by omega, by omega, by omega, hs, max_fee_eq _ h⟩

/-- Witness for `fee_derivation_total` at the largest `u64` base fee. -/
theorem fee_derivation_total_witness :
    (18446744073709551615 : Nat) < U64 ∧
    max_fee 18446744073709551615 =
      18446744073709551615 + priority_fee 18446744073709551615 +
        18446744073709551615 / 4 :=
  ⟨by decide, (fee_derivation_total 18446744073709551615 (by decide)).2.2.2.2.2⟩

/-- C8: evaluation of `parse_rpc_url` on each alias of the claim. The code
resolves "uni-sepolia" and "uni-experimental" to fixed URLs, but returns
"local" unchanged (the pass-through arm), although the field's own doc
comment announces support for the special name 'local'. -/
theorem rpc_url_alias_resolution :
    parse_rpc_url "local" = .ok "local" ∧
    parse_rpc_url "uni-sepolia" = .ok "https://sepolia.unichain.org" ∧
    parse_rpc_url "uni-experimental" =
      .ok "http://experi-Proxy-cDzRHZCY6czr-74615020.us-east-2.elb.amazonaws.com" ∧
    parse_rpc_url "http://other.example:8545" = .ok "http://other.example:8545" :=
  ⟨rfl, rfl, rfl, rfl⟩

/-- C3: the two destination modes are mutually exclusive. With the reverts
flag the request is a contract creation (no destination address) whose
payload is exactly the 5-byte deploy code; without it the destination is
exactly the fixed recipient and the payload is empty. The bundle flag never
reaches the builder, so for every combination of flags the request never
carries both a call destination and the revert payload. -/
theorem destination_mode_exclusive (reverts bundle : Bool)
    (chain_id nonce pf mf : Nat) :
    (build_request reverts chain_id nonce pf mf).to_kind =
      (if reverts then some TxKind.create
       else some (TxKind.call transfer_recipient)) ∧
    (build_request reverts chain_id nonce pf mf).payload =
      (if reverts then revert_deploy_code else []) ∧
    ∀ a : Nat,
      ¬((build_request reverts chain_id nonce pf mf).to_kind =
          some (TxKind.call a) ∧
        (build_request reverts chain_id nonce pf mf).payload =
          revert_deploy_code) := by
  cases reverts <;>
    simp [build_request, TransactionRequest.payload, revert_deploy_code]

/-- Witness for `destination_mode_exclusive` at both flag values. -/
theorem destination_mode_exclusive_witness :
    (build_request true 1301 7 2000000000 3250000000).to_kind =
      some TxKind.create ∧
    (build_request true 1301 7 2000000000 3250000000).payload =
      revert_deploy_code ∧
    (build_request false 1301 7 2000000000 3250000000).to_kind =
      some (TxKind.call transfer_recipient) ∧
    (build_request false 1301 7 2000000000 3250000000).payload = [] := by
  have h1 := destination_mode_exclusive true false 1301 7 2000000000 3250000000
  have h2 := destination_mode_exclusive false false 1301 7 2000000000 3250000000
  exact ⟨by simpa using h1.1, by simpa using h1.2.1,
    by simpa using h2.1, by simpa using h2.2.1⟩

/-- C4: the balance precondition aborts exactly on a literal zero balance:
with every earlier read succeeding, a fetched balance of 0 yields the fatal
insufficient-balance error before any transaction is built or signed, while
any positive balance — even one insufficient to cover maxFeePerGas *
gasLimit — lets the run build, sign and attempt the submission on whichever
path the bundle flag selects. -/
theorem zero_balance_guard (reverts bundle : Bool) (o : Oracle)
    (pk nonce chain_id bf : Nat) (blk : Header)
    (hpk : o.pk_parse = .ok pk)
    (hn : o.get_transaction_count pk = .ok nonce)
    (hc : o.get_chain_id = .ok chain_id)
    (hblk : o.get_block_latest = .ok (some blk))
    (hbf : blk.base_fee_per_gas = some bf) :
    (o.get_balance pk = .ok 0 →
      (main_run reverts bundle o).exit = .errExit
        "Insufficient balance for the transaction. Please fund the account." ∧
      (main_run reverts bundle o).built = none ∧
      (main_run reverts bundle o).encoded = none ∧
      (main_run reverts bundle o).pending = none) ∧
    (∀ (bal : Nat) (enc : List Nat), o.get_balance pk = .ok bal → 0 < bal →
      o.build_sign (build_request reverts chain_id nonce
        (priority_fee bf) (max_fee bf)) = .ok enc →
      (main_run reverts bundle o).built =
        some (build_request reverts chain_id nonce
          (priority_fee bf) (max_fee bf)) ∧
      (main_run reverts bundle o).encoded = some enc ∧
      (bundle = true →
        (main_run reverts bundle o).bundle_sent =
          some ("eth_sendBundle",
            { transactions := [enc], block_number_max := none })) ∧
      (bundle = false →
        (main_run reverts bundle o).raw_sent = some enc)) := by
  constructor
  · intro hbal
    simp [main_run, hpk, hn, hc, hblk, hbf, hbal]
  · intro bal enc hbal hpos hsign
    have hne : ¬(bal = 0) := by omega
    simp only [main_run, hpk, hn, hc, hblk, hbf, hbal]
    rw [if_neg hne]
    simp only [hsign]
    cases bundle with
    | true =>
      cases o.rpc_request "eth_sendBundle"
          { transactions := [enc], block_number_max := none } with
      | error e => simp
      | ok result => simp
    | false =>
      cases o.send_raw_transaction enc with
      | error e => simp
      | ok txh => simp

/-- Witness for `zero_balance_guard`: at `zeroBalanceOracle` the run aborts
with the insufficient-balance message before building, and at `happyOracle`
with the bundle flag the run builds, signs and sends the bundle. -/
theorem zero_balance_guard_witness :
    (main_run false false zeroBalanceOracle).exit = .errExit
      "Insufficient balance for the transaction. Please fund the account." ∧
    (main_run false false zeroBalanceOracle).built = none ∧
    (main_run false true happyOracle).built =
      some (build_request false 1301 7
        (priority_fee 1000000000) (max_fee 1000000000)) ∧
    (main_run false true happyOracle).encoded = some [0x02, 0xaa, 0xbb] ∧
    (main_run false true happyOracle).bundle_sent =
      some ("eth_sendBundle",
        { transactions := [[0x02, 0xaa, 0xbb]], block_number_max := none }) := by
  have h1 := zero_balance_guard false false zeroBalanceOracle
    0xf39Fd6e51aad88F6F4ce6aB8827279cffFb92266 7 1301 1000000000
    { base_fee_per_gas := some 1000000000 } rfl rfl rfl rfl rfl
  have h2 := zero_balance_guard false true happyOracle
    0xf39Fd6e51aad88F6F4ce6aB8827279cffFb92266 7 1301 1000000000
    { base_fee_per_gas := some 1000000000 } rfl rfl rfl rfl rfl
  have p1 := h1.1 rfl
  have p2 := h2.2 1000000000000000000 [0x02, 0xaa, 0xbb] rfl (by decide) rfl
  exact ⟨p1.1, p1.2.1, p2.1, p2.2.1, p2.2.2.1 rfl⟩

/-- C5: with the bundle flag set, the run wraps the encoded envelope as the
sole entry of a `Bundle` with no maximum block number, sends it through the
relay method "eth_sendBundle", and keys the pending handle by the
bundleHash the relay returned — this holds for every relay response, so the
handle never depends on a locally computed transaction hash, and indeed the
direct-broadcast path that would produce one is never taken
(`raw_sent = none`). -/
theorem bundle_submission_handle (reverts : Bool) (o : Oracle)
    (pk nonce chain_id bf bal : Nat) (blk : Header) (enc : List Nat)
    (res : BundleResult)
    (hpk : o.pk_parse = .ok pk)
    (hn : o.get_transaction_count pk = .ok nonce)
    (hc : o.get_chain_id = .ok chain_id)
    (hblk : o.get_block_latest = .ok (some blk))
    (hbf : blk.base_fee_per_gas = some bf)
    (hbal : o.get_balance pk = .ok bal) (hbal0 : bal ≠ 0)
    (hsign : o.build_sign (build_request reverts chain_id nonce
      (priority_fee bf) (max_fee bf)) = .ok enc)
    (hres : o.rpc_request "eth_sendBundle"
      { transactions := [enc], block_number_max := none } = .ok res) :
    (main_run reverts true o).bundle_sent =
      some ("eth_sendBundle",
        { transactions := [enc], block_number_max := none }) ∧
    (main_run reverts true o).pending = some (res.bundle_hash, some 20) ∧
    (main_run reverts true o).raw_sent = none ∧
    (main_run reverts true o).watched =
      some (o.watch res.bundle_hash (some 20)) := by
  simp only [main_run, hpk, hn, hc, hblk, hbf, hbal]
  rw [if_neg hbal0]
  simp [hsign, hres]

/-- Witness for `bundle_submission_handle` at `happyOracle`: the handle is
keyed by the relay's bundleHash `0xbeef`, not the node's raw-send hash. -/
theorem bundle_submission_handle_witness :
    (main_run true true happyOracle).bundle_sent =
      some ("eth_sendBundle",
        { transactions := [[0x02, 0xaa, 0xbb]], block_number_max := none }) ∧
    (main_run true true happyOracle).pending = some (0xbeef, some 20) ∧
    (main_run true true happyOracle).raw_sent = none := by
  have h := bundle_submission_handle true happyOracle
    0xf39Fd6e51aad88F6F4ce6aB8827279cffFb92266 7 1301 1000000000
    1000000000000000000 { base_fee_per_gas := some 1000000000 }
    [0x02, 0xaa, 0xbb] { bundle_hash := 0xbeef }
    rfl rfl rfl rfl rfl rfl (by decide) rfl rfl
  exact ⟨h.1, h.2.1, h.2.2.1⟩

/-- C6: the confirmation watch runs with a 20-second timeout set on the
pending handle, and every watch outcome is non-fatal: once the run reaches
the watch it exits with code 0 whatever the watch returns; conversely every
run with a nonzero exit (key parsing, remote reads, zero balance, signing
or submission failure) never reached the watch. -/
theorem watch_timeout_nonfatal (reverts bundle : Bool) (o : Oracle)
    (pk nonce chain_id bf bal txh : Nat) (blk : Header) (enc : List Nat)
    (res : BundleResult)
    (hpk : o.pk_parse = .ok pk)
    (hn : o.get_transaction_count pk = .ok nonce)
    (hc : o.get_chain_id = .ok chain_id)
    (hblk : o.get_block_latest = .ok (some blk))
    (hbf : blk.base_fee_per_gas = some bf)
    (hbal : o.get_balance pk = .ok bal) (hbal0 : bal ≠ 0)
    (hsign : o.build_sign (build_request reverts chain_id nonce
      (priority_fee bf) (max_fee bf)) = .ok enc)
    (hraw : o.send_raw_transaction enc = .ok txh)
    (hres : o.rpc_request "eth_sendBundle"
      { transactions := [enc], block_number_max := none } = .ok res) :
    (main_run reverts bundle o).exit = ExitKind.ok ∧
    (main_run reverts bundle o).pending =
      some ((if bundle then res.bundle_hash else txh), some 20) ∧
    (main_run reverts bundle o).watched =
      some (o.watch (if bundle then res.bundle_hash else txh) (some 20)) ∧
    (∀ (r' b' : Bool) (o' : Oracle),
      (main_run r' b' o').exit ≠ ExitKind.ok →
      (main_run r' b' o').watched = none) := by
  refine ⟨?_, ?_, ?_, ?_⟩ <;>
    first
    | (intro r' b' o' hexit
       by_cases hw : (main_run r' b' o').watched = none
       · exact hw
       · exact absurd (watched_imp_exit_ok r' b' o' hw) hexit)
    | (simp only [main_run, hpk, hn, hc, hblk, hbf, hbal]
       rw [if_neg hbal0]
       cases bundle <;> simp [hsign, hraw, hres])

/-- Witness for `watch_timeout_nonfatal` at `timeoutOracle`: the watch
times out yet the process exits with code 0, with the 20-second timeout
recorded on the handle; at `zeroBalanceOracle`, whose exit is nonzero, the
watch was never reached. -/
theorem watch_timeout_nonfatal_witness :
    (main_run false false timeoutOracle).exit = ExitKind.ok ∧
    (main_run false false timeoutOracle).pending = some (0xcafe, some 20) ∧
    (main_run false false timeoutOracle).watched =
      some WatchResult.timed_out ∧
    (main_run false false zeroBalanceOracle).watched = none := by
  have h := watch_timeout_nonfatal false false timeoutOracle
    0xf39Fd6e51aad88F6F4ce6aB8827279cffFb92266 7 1301 1000000000
    1000000000000000000 0xcafe { base_fee_per_gas := some 1000000000 }
    [0x02, 0xaa, 0xbb] { bundle_hash := 0xbeef }
    rfl rfl rfl rfl rfl rfl (by decide) rfl rfl rfl
  refine ⟨h.1, by simpa using h.2.1, by simpa using h.2.2.1, ?_⟩
  exact h.2.2.2 false false zeroBalanceOracle (by decide)

/-- C7 counterexample: at a concrete run whose latest block lacks the
base-fee field, the base-fee read does not propagate a recoverable error to
the caller (no `eyre` error return, which is what every recoverable
`Result` failure of this program exits through): it panics through
`expect("base fee")`, aborting the process. -/
theorem missing_base_fee_counterexample :
    (main_run false false noBaseFeeOracle).exit =
      ExitKind.panicked "base fee" ∧
    ∀ msg, (main_run false false noBaseFeeOracle).exit ≠
      ExitKind.errExit msg := by
  constructor
  · rfl
  · intro msg h
    simp [main_run, noBaseFeeOracle, happyOracle] at h

/-- C7 as amended: whenever the latest block returned by the endpoint lacks
the base-fee field, the run panics with message "base fee" (an abort via
`expect`), and in particular never surfaces the failure as a recoverable
error return. -/
theorem missing_base_fee_panics (reverts bundle : Bool) (o : Oracle)
    (pk nonce chain_id : Nat) (blk : Header)
    (hpk : o.pk_parse = .ok pk)
    (hn : o.get_transaction_count pk = .ok nonce)
    (hc : o.get_chain_id = .ok chain_id)
    (hblk : o.get_block_latest = .ok (some blk))
    (hbf : blk.base_fee_per_gas = none) :
    (main_run reverts bundle o).exit = ExitKind.panicked "base fee" ∧
    ∀ msg, (main_run reverts bundle o).exit ≠ ExitKind.errExit msg := by
  constructor
  · simp [main_run, hpk, hn, hc, hblk, hbf]
  · intro msg h
    simp [main_run, hpk, hn, hc, hblk, hbf] at h

/-- Witness for `missing_base_fee_panics` at `noBaseFeeOracle` with both
flags set (a different concrete input than the counterexample). -/
theorem missing_base_fee_panics_witness :
    (main_run true true noBaseFeeOracle).exit =
      ExitKind.panicked "base fee" ∧
    (main_run true true noBaseFeeOracle).exit ≠
      ExitKind.errExit "base fee" := by
  have h := missing_base_fee_panics true true noBaseFeeOracle
    0xf39Fd6e51aad88F6F4ce6aB8827279cffFb92266 7 1301
    { base_fee_per_gas := none } rfl rfl rfl rfl rfl
  exact ⟨h.1, h.2 "base fee"⟩

/-- Helper: the big-endian byte encoding of a natural number decodes back
to it. -/
lemma beBytesToNat_natToBeBytes (n : Nat) :
    beBytesToNat (natToBeBytes n) = n := by
  simp [beBytesToNat, natToBeBytes, Nat.ofDigits_digits]

/-- Helper: reading a framed byte string recovers it and the remainder. -/
lemma parseFrame_frame (bs rest : List Nat) :
    parseFrame (frame bs ++ rest) = some (bs, rest) := by
  show (if bs.length ≤ (bs ++ rest).length then
      some ((bs ++ rest).take bs.length, (bs ++ rest).drop bs.length)
    else none) = some (bs, rest)
  rw [if_pos (by simp), List.take_left, List.drop_left]

/-- Helper: reading a framed natural number recovers it. -/
lemma parseNatF_frame (n : Nat) (rest : List Nat) :
    parseNatF (frame (natToBeBytes n) ++ rest) = some (n, rest) := by
  simp [parseNatF, parseFrame_frame, beBytesToNat_natToBeBytes]

/-- Helper: reading an encoded destination recovers it. -/
lemma parse_to_kind_encode (k : TxKind) (rest : List Nat) :
    parse_to_kind (encode_to_kind (some k) ++ rest) = some (k, rest) := by
  cases k with
  | create => rfl
  | call a =>
    show parse_to_kind (1 :: (frame (natToBeBytes a) ++ rest)) = _
    simp [parse_to_kind, parseFrame_frame, beBytesToNat_natToBeBytes]

/-- Helper: reading an encoded signature recovers it. -/
lemma parse_sig_encode (g : Signature) (rest : List Nat) :
    parse_sig (encode_sig g ++ rest) = some (g, rest) := by
  cases g with
  | mk p r s =>
    cases p <;>
      simp [encode_sig, parse_sig, parse_sig_scalars, parseNatF_frame,
        List.append_assoc]

/-- Helper: `parse_sig_encode` with nothing after the signature. -/
lemma parse_sig_encode_nil (g : Signature) :
    parse_sig (encode_sig g) = some (g, []) := by
  simpa using parse_sig_encode g []

/-- Helper: reading the encoded fields recovers every field and leaves the
continuation, provided the destination was set. -/
lemma parse_fields_encode (t : TransactionRequest) (k : TxKind)
    (rest : List Nat) (hk : t.to_kind = some k) :
    parse_fields (encode_fields_then t rest) =
      some (t.chain_id.getD 0, t.nonce.getD 0,
        t.max_priority_fee_per_gas.getD 0, t.max_fee_per_gas.getD 0,
        t.gas_limit.getD 0, k, t.payload, rest) := by
  simp [parse_fields, encode_fields_then, parseNatF_frame, hk,
    parse_to_kind_encode, parseFrame_frame]

/-- Helper: full decode of an encoded envelope, for any request with a set
destination. -/
lemma decode_encode (S : SigScheme) (key : Nat) (t : TransactionRequest)
    (k : TxKind) (hk : t.to_kind = some k) :
    decode_2718 (encoded_2718 S key t) =
      some { chain_id := t.chain_id.getD 0, nonce := t.nonce.getD 0,
             max_priority_fee_per_gas := t.max_priority_fee_per_gas.getD 0,
             max_fee_per_gas := t.max_fee_per_gas.getD 0,
             gas_limit := t.gas_limit.getD 0, to_kind := k,
             payload := t.payload,
             sig := S.sign key (signing_payload t) } := by
  simp [encoded_2718, decode_2718, parse_fields_encode t k _ hk,
    parse_sig_encode_nil]

/-- Helper: the signing payload rebuilt from the decoded fields equals the
signing payload of the original request. -/
lemma signing_payload_decoded (t : TransactionRequest) (k : TxKind)
    (g : Signature) (hk : t.to_kind = some k) :
    signing_payload (DecodedTx.to_request
      { chain_id := t.chain_id.getD 0, nonce := t.nonce.getD 0,
        max_priority_fee_per_gas := t.max_priority_fee_per_gas.getD 0,
        max_fee_per_gas := t.max_fee_per_gas.getD 0,
        gas_limit := t.gas_limit.getD 0, to_kind := k,
        payload := t.payload, sig := g }) = signing_payload t := by
  simp [signing_payload, DecodedTx.to_request, encode_fields_then,
    TransactionRequest.payload, hk]

/-- Helper: sender recovery on the encoded envelope of any request with a
set destination yields the signing key's derived address. -/
lemma recovered_sender_encode (S : SigScheme) (hS : S.correct) (key : Nat)
    (t : TransactionRequest) (k : TxKind) (hk : t.to_kind = some k) :
    recovered_sender S (encoded_2718 S key t) = some (S.addr_of key) := by
  rw [recovered_sender, decode_encode S key t k hk]
  simp only [Option.map_some']
  rw [signing_payload_decoded t k _ hk, hS]

/-- C9: round-trip of the signed envelope. For every correct signature
scheme (the contract of the Signer: recovery of a produced signature yields
the key's derived address, realized outside this repository by secp256k1),
decoding the binary 2718 envelope built from any builder output recovers
exactly the supplied nonce, chainId, gasLimit = 300000, both fee fields and
the destination/payload of the chosen mode, and the sender recovered from
the envelope's signature is the Signer's derived address. -/
theorem envelope_roundtrip (S : SigScheme) (hS : S.correct) (key : Nat)
    (reverts : Bool) (chain_id nonce pf mf : Nat) :
    decode_2718 (encoded_2718 S key
        (build_request reverts chain_id nonce pf mf)) =
      some { chain_id := chain_id, nonce := nonce,
             max_priority_fee_per_gas := pf, max_fee_per_gas := mf,
             gas_limit := 300000,
             to_kind := if reverts then TxKind.create
               else TxKind.call transfer_recipient,
             payload := if reverts then revert_deploy_code else [],
             sig := S.sign key (signing_payload
               (build_request reverts chain_id nonce pf mf)) } ∧
    recovered_sender S (encoded_2718 S key
        (build_request reverts chain_id nonce pf mf)) =
      some (S.addr_of key) := by
  have hk : (build_request reverts chain_id nonce pf mf).to_kind =
      some (if reverts then TxKind.create
        else TxKind.call transfer_recipient) := by
    cases reverts <;> simp [build_request]
  refine ⟨?_, recovered_sender_encode S hS key _ _ hk⟩
  rw [decode_encode S key _ _ hk]
  cases reverts <;> simp [build_request, TransactionRequest.payload]

/-- Witness for `envelope_roundtrip`: the trivial correct scheme (address
carried in the `r` component) on a concrete reverting request. -/
theorem envelope_roundtrip_witness :
    decode_2718 (encoded_2718 trivialScheme 5
        (build_request true 1301 7 2000000000 3250000000)) =
      some { chain_id := 1301, nonce := 7,
             max_priority_fee_per_gas := 2000000000,
             max_fee_per_gas := 3250000000,
             gas_limit := 300000, to_kind := TxKind.create,
             payload := revert_deploy_code,
             sig := { y_parity := false, r := 11, s := 0 } } ∧
    recovered_sender trivialScheme (encoded_2718 trivialScheme 5
        (build_request true 1301 7 2000000000 3250000000)) = some 11 := by
  have h := envelope_roundtrip trivialScheme
    (fun key payload => rfl) 5 true 1301 7 2000000000 3250000000
  exact ⟨by simpa [trivialScheme] using h.1, by simpa [trivialScheme] using h.2⟩

end RevertProtection
